import Mathlib

/-!
Verification of the event-to-action translation engine of `lana-sim-scenarios`.

This file gives a shallow embedding, in Lean 4, of the two core components of
the repository (the scenario loader in
`src/lana_sim_scenarios/generator/scenario_parser.py` and the event translator
in `src/lana_sim_scenarios/generator/rust_generator.py`) and proves the
frozen claims C1..C10 about them.

Modelling conventions:
* A YAML value (`event.values` entries, `terms` sub-mappings) is a `YVal`:
  a numeric scalar (Python `int`/`float`/`Decimal`, carried as an exact
  rational), a string scalar, or a mapping (association list).  Python dicts
  are modelled as association lists with unique keys; `dset` is `d[k] = v`
  (update in place, else append, matching insertion-order semantics).
* `Decimal(str(x))` is `yToDec`; for string scalars it parses a plain decimal
  literal (optional sign, digits, optional fraction).  Exotic `Decimal` inputs
  (exponents, `NaN`, surrounding whitespace) are modelled as parse failures;
  no claim exercises them.
* Python code that can raise (`Decimal` on a malformed string, `/` or string
  methods on an ill-typed value) is modelled with `Option`: `none` means the
  translation raises and produces nothing.
* `timedelta` values are modelled by their total number of seconds (the parser
  only ever produces non-negative whole seconds); `.days` is `/ 86400`.
* Python float division `x / 100` (for `amount_usd`) is modelled as exact
  rational division; no claim inspects an `amount_usd` value where binary
  float rounding would differ.
-/

/-- A YAML value as seen by the generator: numeric scalar, string scalar, or
nested mapping. -/
inductive YVal where
  | num : ℚ → YVal
  | str : String → YVal
  | map : List (String × YVal) → YVal

/-- Python truthiness of a `YVal` (`if x:`): zero, the empty string and the
empty mapping are falsy. -/
def yTruthy : YVal → Bool
  | .num q => if q = 0 then false else true
  | .str s => if s = "" then false else true
  | .map kvs => !kvs.isEmpty

/-- Value of a non-empty list of decimal digit characters. -/
def digitsVal (ds : List Char) : ℕ :=
  ds.foldl (fun n c => 10 * n + (c.toNat - 48)) 0

/-- Parse a plain decimal literal (`"12"`, `"0.10"`, `"-3."`, `".5"`) into an
exact rational; `none` models `decimal.InvalidOperation`. -/
def parseDec (s : String) : Option ℚ :=
  let cs := s.data
  let signed : ℚ × List Char :=
    match cs with
    | '-' :: rest => (-1, rest)
    | '+' :: rest => (1, rest)
    | _ => (1, cs)
  let sign := signed.1
  let body := signed.2
  let intPart := body.takeWhile (fun c => c ≠ '.')
  match body.dropWhile (fun c => c ≠ '.') with
  | [] =>
      if intPart ≠ [] ∧ intPart.all Char.isDigit then
        some (sign * digitsVal intPart)
      else none
  | _ :: frac =>
      if (intPart ≠ [] ∨ frac ≠ []) ∧ intPart.all Char.isDigit ∧ frac.all Char.isDigit then
        some (sign * ((digitsVal intPart : ℚ) + (digitsVal frac : ℚ) / (10 ^ frac.length)))
      else none

/-- Model of `Decimal(str(x))` on a YAML scalar: a numeric scalar is its own
value, a string scalar is parsed, a mapping raises (`none`). -/
def yToDec : YVal → Option ℚ
  | .num q => some q
  | .str s => parseDec s
  | .map _ => none

/-- Python dict assignment `d[k] = v` on an association list: overwrite in
place if the key is present, append otherwise. -/
def dset {α : Type} (m : List (String × α)) (k : String) (v : α) :
    List (String × α) :=
  if m.any (fun kv => kv.1 == k) then
    m.map (fun kv => if kv.1 == k then (k, v) else kv)
  else m ++ [(k, v)]

/-- Python `d.get(k1, d.get(k2))`: first key wins if present. -/
def yget2 (kvs : List (String × YVal)) (k1 k2 : String) : Option YVal :=
  match kvs.lookup k1 with
  | some v => some v
  | none => kvs.lookup k2

/-- Python `str.rstrip(chars)`: remove all trailing characters belonging to
the character set. -/
def pyRstrip (s : String) (cset : List Char) : String :=
  ⟨(s.data.reverse.dropWhile (fun c => cset.contains c)).reverse⟩

/-- Fuel-driven worker for `pyReplace` (structural recursion on the fuel so
that it evaluates inside the kernel). -/
def replaceAllFuel (pat rep : List Char) : ℕ → List Char → List Char
  | 0, cs => cs
  | _ + 1, [] => []
  | fuel + 1, a :: rest =>
      if pat ≠ [] ∧ pat.isPrefixOf (a :: rest) then
        rep ++ replaceAllFuel pat rep fuel ((a :: rest).drop pat.length)
      else a :: replaceAllFuel pat rep fuel rest

/-- Python `s.replace(pat, rep)` for a non-empty pattern: replace every
non-overlapping occurrence, left to right. -/
def pyReplace (s pat rep : String) : String :=
  ⟨replaceAllFuel pat.data rep.data s.data.length s.data⟩

/-- Python `s.endswith(t)`. -/
def pyEndsWith (s t : String) : Bool :=
  t.data.isSuffixOf s.data

/-- Python `s.startswith(t)`. -/
def pyStartsWith (s t : String) : Bool :=
  t.data.isPrefixOf s.data

/-- Split a character list on a separator character, Python `str.split(sep)`
for a single-character separator. -/
def splitChar (c : Char) : List Char → List (List Char)
  | [] => [[]]
  | a :: rest =>
      let r := splitChar c rest
      if a = c then [] :: r
      else
        match r with
        | [] => [[a]]
        | g :: gs => (a :: g) :: gs

/-- `TermsValues`: canonical facility terms (dataclass defaults of the
source).  Fields the source stores verbatim from YAML keep type `YVal`;
numeric fields that always pass through `Decimal` are rationals. -/
structure TermsValues where
  annual_rate : ℚ := 12
  duration_months : YVal := .num 3
  interest_due_days : YVal := .num 0
  overdue_days : ℕ := 50
  liquidation_days : Option ℕ := none
  accrual_interval : YVal := .str "EndOfDay"
  accrual_cycle_interval : YVal := .str "EndOfMonth"
  one_time_fee_rate : ℚ := 1 / 100
  initial_cvl : ℚ := 140
  margin_call_cvl : ℚ := 125
  liquidation_cvl : ℚ := 105
  disbursal_policy : YVal := .str "SingleDisbursal"

/-- The nested `parse_cvl` helper of `TermsValues.from_yaml`: a non-mapping or
empty argument yields the default, a truthy `Finite`/`finite` entry is
converted (`< 10` means a fraction, scaled by 100), a falsy one falls back to
the default; a `Finite` value on which `Decimal` raises propagates `none`. -/
def parse_cvl (cvl_dict : YVal) (dflt : ℚ) : Option ℚ :=
  match cvl_dict with
  | .map kvs =>
      if kvs.isEmpty then some dflt
      else
        match yget2 kvs "Finite" "finite" with
        | some finite =>
            if yTruthy finite then
              (yToDec finite).map (fun val => if val < 10 then val * 100 else val)
            else some dflt
        | none => some dflt
  | _ => some dflt

/-- Annual-rate clause of `TermsValues.from_yaml`: absent key defaults to 12,
otherwise `Decimal(str(v))`, scaled by 100 when `< 1`. -/
def annualRateRaw (kvs : List (String × YVal)) : Option ℚ :=
  match kvs.lookup "annual_rate" with
  | none => some 12
  | some v => (yToDec v).map (fun rate => if rate < 1 then rate * 100 else rate)

/-- Body of `TermsValues.from_yaml` for a non-empty mapping.  The five
`Decimal` conversions may raise; which one raises first is abstracted away by
the all-or-nothing `Option`. -/
def from_yaml_map (kvs : List (String × YVal)) : Option TermsValues :=
  match annualRateRaw kvs,
        parse_cvl ((kvs.lookup "initial_cvl").getD (.map [])) 140,
        parse_cvl ((kvs.lookup "margin_call_cvl").getD (.map [])) 125,
        parse_cvl ((kvs.lookup "liquidation_cvl").getD (.map [])) 105,
        yToDec ((kvs.lookup "one_time_fee_rate").getD (.str "0.01")) with
  | some annual_rate, some initial_cvl, some margin_call_cvl,
      some liquidation_cvl, some one_time_fee_rate =>
      some { annual_rate := annual_rate
             duration_months :=
               (match kvs.lookup "duration" with
                | some (.map dkvs) => (yget2 dkvs "Months" "months").getD (.num 3)
                | _ => .num 3)
             interest_due_days :=
               (match kvs.lookup "interest_due_duration_from_accrual" with
                | some (.map ikvs) => (yget2 ikvs "Days" "days").getD (.num 0)
                | _ => .num 0)
             one_time_fee_rate := one_time_fee_rate
             initial_cvl := initial_cvl
             margin_call_cvl := margin_call_cvl
             liquidation_cvl := liquidation_cvl
             accrual_interval := (kvs.lookup "accrual_interval").getD (.str "EndOfDay")
             accrual_cycle_interval :=
               (kvs.lookup "accrual_cycle_interval").getD (.str "EndOfMonth")
             disbursal_policy :=
               (kvs.lookup "disbursal_policy").getD (.str "SingleDisbursal") }
  | _, _, _, _, _ => none

/-- `TermsValues.from_yaml`: a falsy argument (`if not terms`) yields the
defaults, a non-empty mapping is parsed, anything else raises (`none`).  The
callers pass `terms or {}`, which our falsy clause already absorbs. -/
def TermsValues.from_yaml (terms : YVal) : Option TermsValues :=
  if yTruthy terms then
    match terms with
    | .map kvs => from_yaml_map kvs
    | _ => none
  else some {}

/-- Facility registration record (`tracker.facilities[entity]`).  The raw
`amount` is stored verbatim (it is only divided by 100 at expansion time). -/
structure FacilityInfo where
  customer_ref : String
  collateral_ref : String
  amount : YVal
  terms : TermsValues

/-- Collateral registration record (`tracker.collaterals[entity]`). -/
structure CollateralInfo where
  satoshis : ℤ
  facility_ref : Option String

/-- Disbursal registration record (`tracker.disbursals[entity]`). -/
structure DisbursalInfo where
  facility_ref : Option String
  amount : ℤ

/-- `EntityTracker`: the per-scenario resolution table. -/
structure EntityTracker where
  customers : List (String × String) := []
  facilities : List (String × FacilityInfo) := []
  collaterals : List (String × CollateralInfo) := []
  disbursals : List (String × DisbursalInfo) := []

/-- `EntityTracker.register_customer` with the default suffix (the only call
site passes no explicit suffix): strip the conventional `customer_` prefix. -/
def register_customer (t : EntityTracker) (entity : String) : EntityTracker :=
  { t with customers := dset t.customers entity (pyReplace entity "customer_" "") }

/-- `EntityTracker.register_facility`.  The Python method parses the raw
`terms` dict itself (`TermsValues.from_yaml(terms or {})`); our callers run
`TermsValues.from_yaml` first (it already maps every falsy input to the
defaults, absorbing the `or {}`) and hand over the result. -/
def register_facility (t : EntityTracker) (entity customer_ref collateral_ref : String)
    (amount : YVal) (terms : TermsValues) : EntityTracker :=
  { t with facilities := dset t.facilities entity ⟨customer_ref, collateral_ref, amount, terms⟩ }

/-- `EntityTracker.register_collateral`. -/
def register_collateral (t : EntityTracker) (entity : String) (satoshis : ℤ)
    (facility_ref : Option String) : EntityTracker :=
  { t with collaterals := dset t.collaterals entity ⟨satoshis, facility_ref⟩ }

/-- `EntityTracker.register_disbursal`. -/
def register_disbursal (t : EntityTracker) (entity : String)
    (facility_ref : Option String) (amount : ℤ) : EntityTracker :=
  { t with disbursals := dset t.disbursals entity ⟨facility_ref, amount⟩ }

/-- `EntityTracker.get_facility_for_entity`: reverse lookup, disbursals
first, then collaterals. -/
def get_facility_for_entity (t : EntityTracker) (entity : String) : Option String :=
  match t.disbursals.lookup entity with
  | some d => d.facility_ref
  | none =>
      match t.collaterals.lookup entity with
      | some c => c.facility_ref
      | none => none

/-- A value stored in a `SimAction.params` mapping: a raw YAML value carried
over from `event.values`, a computed number (`amount_usd`), a computed string,
or a parsed `TermsValues`. -/
inductive PVal where
  | y : YVal → PVal
  | q : ℚ → PVal
  | s : String → PVal
  | terms : TermsValues → PVal

/-- Lookup in a params mapping (Python `params.get(k)`). -/
def pget (ps : List (String × PVal)) (k : String) : Option PVal :=
  ps.lookup k

/-- Python dict assignment on a params mapping. -/
def pset (ps : List (String × PVal)) (k : String) (v : PVal) : List (String × PVal) :=
  dset ps k v

/-- Python `x / 100` on a params value: numbers divide, strings, mappings and
parsed terms raise `TypeError` (`none`). -/
def pdiv100 : PVal → Option ℚ
  | .y (.num q) => some (q / 100)
  | .q q => some (q / 100)
  | _ => none

/-- A high-level sim-bootstrap action. -/
structure SimAction where
  action_type : String
  entity : String
  params : List (String × PVal)
  wait_days : ℕ

/-- `RustGenerator.EVENT_TO_ACTION`: the fixed event-to-action dispatch
table, verbatim. -/
def EVENT_TO_ACTION : List (String × String) :=
  [("CustomerEvent::Initialized", "create_customer"),
   ("CustomerEvent::EmailUpdated", "skip"),
   ("DepositAccountEvent::Initialized", "skip"),
   ("DepositEvent::Initialized", "make_deposit"),
   ("DepositEvent::Reverted", "skip"),
   ("WithdrawalEvent::Initialized", "skip"),
   ("WithdrawalEvent::Confirmed", "skip"),
   ("WithdrawalEvent::Denied", "skip"),
   ("WithdrawalEvent::Cancelled", "skip"),
   ("CreditFacilityProposalEvent::Initialized", "create_proposal"),
   ("CreditFacilityProposalEvent::CustomerApprovalConcluded", "conclude_customer_approval"),
   ("CreditFacilityProposalEvent::ApprovalProcessConcluded", "wait_for_approval"),
   ("ApprovalProcessEvent::Initialized", "skip"),
   ("ApprovalProcessEvent::Approved", "skip"),
   ("ApprovalProcessEvent::Denied", "skip"),
   ("ApprovalProcessEvent::Concluded", "skip"),
   ("CollateralEvent::Initialized", "skip"),
   ("CollateralEvent::UpdatedViaManualInput", "update_collateral"),
   ("CollateralEvent::UpdatedViaCustodianSync", "update_collateral"),
   ("PendingCreditFacilityEvent::Initialized", "skip"),
   ("PendingCreditFacilityEvent::CollateralizationStateChanged", "skip"),
   ("PendingCreditFacilityEvent::Completed", "skip"),
   ("CreditFacilityEvent::Initialized", "multi:create_facility"),
   ("CreditFacilityEvent::InterestAccrualCycleStarted", "advance_time"),
   ("CreditFacilityEvent::InterestAccrualCycleConcluded", "skip"),
   ("CreditFacilityEvent::CollateralizationStateChanged", "skip"),
   ("CreditFacilityEvent::CollateralizationRatioChanged", "skip"),
   ("CreditFacilityEvent::PartialLiquidationInitiated", "skip"),
   ("CreditFacilityEvent::ProceedsFromPartialLiquidationApplied", "skip"),
   ("CreditFacilityEvent::Matured", "advance_time"),
   ("CreditFacilityEvent::Completed", "complete_facility"),
   ("DisbursalEvent::Initialized", "initiate_disbursal"),
   ("DisbursalEvent::ApprovalProcessConcluded", "skip"),
   ("DisbursalEvent::Settled", "wait_for_disbursal"),
   ("ObligationEvent::Initialized", "skip"),
   ("ObligationEvent::DueRecorded", "advance_time"),
   ("ObligationEvent::OverdueRecorded", "advance_time"),
   ("ObligationEvent::DefaultedRecorded", "advance_time"),
   ("ObligationEvent::PaymentAllocated", "skip"),
   ("ObligationEvent::Completed", "skip"),
   ("PaymentEvent::Initialized", "record_payment"),
   ("PaymentAllocationEvent::Initialized", "skip"),
   ("LiquidationEvent::Initialized", "skip"),
   ("LiquidationEvent::CollateralSentOut", "skip"),
   ("LiquidationEvent::ProceedsReceivedAndLiquidationCompleted", "skip"),
   ("CustodianEvent::Initialized", "skip"),
   ("CustodianEvent::ConfigUpdated", "skip"),
   ("ProspectEvent::Initialized", "skip"),
   ("ProspectEvent::KycStarted", "skip"),
   ("ProspectEvent::KycPending", "skip"),
   ("ProspectEvent::KycApproved", "skip"),
   ("ProspectEvent::KycDeclined", "skip"),
   ("ProspectEvent::ManuallyConverted", "skip"),
   ("ProspectEvent::Closed", "skip"),
   ("TermsTemplateEvent::Initialized", "create_terms_template"),
   ("CommitteeEvent::Initialized", "skip"),
   ("CommitteeEvent::MemberAdded", "skip"),
   ("ReportEvent::Initialized", "skip"),
   ("ReportRunEvent::Initialized", "skip"),
   ("ReportRunEvent::StateUpdated", "skip"),
   ("ChartEvent::Initialized", "skip"),
   ("ChartEvent::BaseConfigSet", "skip"),
   ("ChartNodeEvent::Initialized", "skip"),
   ("ChartNodeEvent::ChildNodeAdded", "skip"),
   ("RoleEvent::Initialized", "skip"),
   ("UserEvent::Initialized", "skip")]

/-- A single event of a scenario.  `after` is the parsed `timedelta`, carried
as its total number of seconds. -/
structure ScenarioEvent where
  event_type : String
  entity : String
  after : ℕ
  values : List (String × YVal)

/-- A complete scenario.  `start_time` is kept as the raw timestamp string:
no claim concerns timestamp parsing and the translator never reads it. -/
structure Scenario where
  name : String
  description : String
  seed : ℤ
  start_time : String
  events : List ScenarioEvent

/-- `ScenarioParser._parse_duration`, on the character list of the input
string: `re.match(r"(\d+)([smhd])", s)` anchors at the start only, so the
maximal leading digit run followed by a unit letter matches (unit letters are
not digits, so backtracking never helps); everything else yields a zero
duration.  The result is the `timedelta` in seconds. -/
def parse_duration (cs : List Char) : ℕ :=
  if cs.isEmpty then 0
  else if (cs.takeWhile Char.isDigit).isEmpty then 0
  else
    match (cs.dropWhile Char.isDigit).head? with
    | some u =>
        if u = 's' then digitsVal (cs.takeWhile Char.isDigit)
        else if u = 'm' then digitsVal (cs.takeWhile Char.isDigit) * 60
        else if u = 'h' then digitsVal (cs.takeWhile Char.isDigit) * 3600
        else if u = 'd' then digitsVal (cs.takeWhile Char.isDigit) * 86400
        else 0
    | none => 0

/-- One raw event definition as it appears in the YAML file; `after` and
`values` are optional fields. -/
structure EventDef where
  event : String
  entity : String
  after : Option String
  values : Option (List (String × YVal))

/-- `ScenarioParser._parse_event`: absent `after` defaults to the string
`"0m"`, absent `values` to the empty mapping. -/
def parse_event (d : EventDef) : ScenarioEvent :=
  { event_type := d.event
    entity := d.entity
    after := parse_duration (d.after.getD "0m").data
    values := d.values.getD [] }

/-- Reference resolution in `convert_scenario` pass 1:
`ref.rstrip("_ref") if ref.endswith("_ref") else ref`.  A non-string value
raises `AttributeError` (`none`).  Note this is Python `rstrip`, which strips
trailing characters from the set, not the literal suffix. -/
def resolveRef (v : YVal) : Option String :=
  match v with
  | .str s => some (if pyEndsWith s "_ref" then pyRstrip s ['_', 'r', 'e', 'f'] else s)
  | _ => none

/-- One step of the first pass of `RustGenerator.convert_scenario`, acting on
the state `(collateral_amounts, tracker)`. -/
def pass1_step (st : List (String × YVal) × EntityTracker) (e : ScenarioEvent) :
    Option (List (String × YVal) × EntityTracker) :=
  if e.event_type = "CollateralEvent::UpdatedViaManualInput" then
    some (dset st.1 e.entity ((e.values.lookup "collateral").getD (.num 25000000)), st.2)
  else if e.event_type = "CustomerEvent::Initialized" then
    some (st.1, register_customer st.2 e.entity)
  else if e.event_type = "CreditFacilityEvent::Initialized" then
    match resolveRef ((e.values.lookup "customer_id_ref").getD (.str "customer_1")),
          resolveRef ((e.values.lookup "collateral_id_ref").getD (.str "collateral_1")),
          TermsValues.from_yaml ((e.values.lookup "terms").getD (.map [])) with
    | some customer_ref, some collateral_ref, some terms =>
        some (st.1,
          register_facility st.2 e.entity customer_ref collateral_ref
            ((e.values.lookup "amount").getD (.num 500000)) terms)
    | _, _, _ => none
  else some st

/-- First pass of `RustGenerator.convert_scenario` over the whole event
list. -/
def pass1 : List ScenarioEvent → List (String × YVal) × EntityTracker →
    Option (List (String × YVal) × EntityTracker)
  | [], st => some st
  | e :: rest, st =>
      match pass1_step st e with
      | none => none
      | some st' => pass1 rest st'

/-- The collateral entity key registered for a facility entity, with the
conventional default. -/
def facilityCollateralRef (tracker : EntityTracker) (entity : String) : String :=
  ((tracker.facilities.lookup entity).map FacilityInfo.collateral_ref).getD "collateral_1"

/-- The customer entity key registered for a facility entity, with the
conventional default (`facility_info.get("customer_ref", "customer_1")`). -/
def facilityCustomerRef (tracker : EntityTracker) (entity : String) : String :=
  ((tracker.facilities.lookup entity).map FacilityInfo.customer_ref).getD "customer_1"

/-- The registered terms of a facility entity
(`facility_info.get("terms", TermsValues())`). -/
def facilityTerms (tracker : EntityTracker) (entity : String) : TermsValues :=
  ((tracker.facilities.lookup entity).map FacilityInfo.terms).getD {}

/-- The registered raw amount of a facility entity
(`facility_info.get("amount", 500000)`). -/
def facilityAmount (tracker : EntityTracker) (entity : String) : YVal :=
  ((tracker.facilities.lookup entity).map FacilityInfo.amount).getD (.num 500000)

/-- The collateral amount used by the `update_collateral_for_activation` step:
the pass-1 amount tracked for the facility's registered collateral entity,
else this event's own `collateral` value, else 25,000,000. -/
def expansionCollateralAmount (collateral_amounts : List (String × YVal))
    (tracker : EntityTracker) (e : ScenarioEvent) : YVal :=
  (collateral_amounts.lookup (facilityCollateralRef tracker e.entity)).getD
    ((e.values.lookup "collateral").getD (.num 25000000))

/-- `RustGenerator._expand_multi_action`.  The `facility_info.get` defaults
(factored into the four helper functions above, which model the method's
local variables) apply only when the entity was never registered;
`amount / 100` raises on a non-numeric registered amount (`none`). -/
def expand_multi_action (multi_type : String) (e : ScenarioEvent)
    (tracker : EntityTracker) (collateral_amounts : List (String × YVal)) :
    Option (List SimAction) :=
  if multi_type = "create_facility" then
    match pdiv100 (.y (facilityAmount tracker e.entity)) with
    | none => none
    | some amount_usd =>
        some [⟨"create_proposal", e.entity,
                [("customer_ref", .s (facilityCustomerRef tracker e.entity)),
                 ("amount_usd", .q amount_usd),
                 ("terms", .terms (facilityTerms tracker e.entity))], 0⟩,
              ⟨"conclude_customer_approval", e.entity, [], 0⟩,
              ⟨"wait_for_approval", e.entity, [], 0⟩,
              ⟨"update_collateral_for_activation", e.entity,
                [("satoshis", .y (expansionCollateralAmount collateral_amounts tracker e))], 0⟩,
              ⟨"wait_for_facility_activation", e.entity, [], 0⟩]
  else some []

/-- The wait-day fix-up applied to an expansion
(`ma.wait_days = event.after.days if i == 0 else 0`). -/
def set_waits (w : ℕ) : List SimAction → List SimAction
  | [] => []
  | a :: rest => { a with wait_days := w } :: rest.map (fun b => { b with wait_days := 0 })

/-- `RustGenerator._extract_params`.  The `tracker` argument is unused, as in
the source.  `params` starts as a copy of `event.values` plus the entity key;
the divisions by 100 raise on non-numeric amounts (`none`). -/
def extract_params (e : ScenarioEvent) (action_type : String)
    (_tracker : EntityTracker) : Option (List (String × PVal)) :=
  let params := pset (e.values.map (fun kv => (kv.1, PVal.y kv.2))) "entity" (.s e.entity)
  if action_type = "create_customer" then
    let p1 := pset params "suffix" (.s (pyReplace e.entity "customer_" ""))
    let p2 := pset p1 "email" ((pget p1 "email").getD (.s (e.entity ++ "@example.com")))
    some (pset p2 "customer_type" ((pget p2 "customer_type").getD (.s "Individual")))
  else if action_type = "make_deposit" then
    (pdiv100 ((pget params "amount").getD (.y (.num 10000000)))).map
      (fun v => pset params "amount_usd" (.q v))
  else if action_type = "create_proposal" then
    match pdiv100 ((pget params "amount").getD (.y (.num 500000))) with
    | none => none
    | some v =>
        let p1 := pset params "amount_usd" (.q v)
        match (match pget p1 "terms" with
               | some (.y tv) => TermsValues.from_yaml tv
               | none => TermsValues.from_yaml (.map [])
               | some _ => none) with
        | none => none
        | some tv => some (pset p1 "terms" (.terms tv))
  else if action_type = "update_collateral" then
    some (pset params "satoshis" ((pget params "collateral").getD (.y (.num 25000000))))
  else if action_type = "initiate_disbursal" then
    (pdiv100 ((pget params "amount").getD (.y (.num 500000)))).map
      (fun v => pset params "amount_usd" (.q v))
  else if action_type = "record_payment" then
    (pdiv100 ((pget params "amount").getD (.y (.num 0)))).map
      (fun v => pset params "amount_usd" (.q v))
  else some params

/-- Body of one iteration of the second pass, after the dispatch lookup
(`action_type = EVENT_TO_ACTION.get(event.event_type, "unknown")`). -/
def convert_event_core (collateral_amounts : List (String × YVal))
    (tracker : EntityTracker) (e : ScenarioEvent) (action_type : String) :
    Option (List SimAction) :=
  if action_type = "skip" then some []
  else if action_type = "unknown" then
    some [⟨"comment", e.entity, [("text", .s ("TODO: " ++ e.event_type))], e.after / 86400⟩]
  else if pyStartsWith action_type "multi:" then
    (expand_multi_action ⟨((splitChar ':' action_type.data).getD 1 [])⟩ e tracker
        collateral_amounts).map
      (set_waits (e.after / 86400))
  else
    (extract_params e action_type tracker).map
      (fun ps => [⟨action_type, e.entity, ps, e.after / 86400⟩])

/-- The actions contributed by one event in the second pass of
`RustGenerator.convert_scenario`: `skip` contributes nothing, an unknown
event type a `comment` placeholder, a `multi:` marker its expansion, and a
direct mapping a single action. -/
def convert_event (collateral_amounts : List (String × YVal))
    (tracker : EntityTracker) (e : ScenarioEvent) : Option (List SimAction) :=
  convert_event_core collateral_amounts tracker e
    ((EVENT_TO_ACTION.lookup e.event_type).getD "unknown")

/-- Second pass of `RustGenerator.convert_scenario`: concatenate each event's
contribution in order. -/
def pass2 (collateral_amounts : List (String × YVal)) (tracker : EntityTracker) :
    List ScenarioEvent → Option (List SimAction)
  | [] => some []
  | e :: rest =>
      match convert_event collateral_amounts tracker e with
      | none => none
      | some as =>
          match pass2 collateral_amounts tracker rest with
          | none => none
          | some more => some (as ++ more)

/-- `RustGenerator.convert_scenario` (the `translate` operation of the spec):
two passes over the events, returning the ordered action list and the
populated tracker. -/
def convert_scenario (s : Scenario) : Option (List SimAction × EntityTracker) :=
  match pass1 s.events ([], {}) with
  | none => none
  | some (collateral_amounts, tracker) =>
      match pass2 collateral_amounts tracker s.events with
      | none => none
      | some actions => some (actions, tracker)

/-- Claim-side weight function (C1): how many actions one event contributes,
as a function of its dispatch classification alone. -/
def eventWeight (event_type : String) : ℕ :=
  match EVENT_TO_ACTION.lookup event_type with
  | none => 1
  | some a => if a = "skip" then 0 else if a = "multi:create_facility" then 5 else 1

/-- Claim-side recording of pass-1 collateral amounts (amended C6): the most
recent `collateral` value (default 25,000,000) of each
`CollateralEvent::UpdatedViaManualInput` event, keyed by its entity. -/
def manualAmounts (evs : List ScenarioEvent) (init : List (String × YVal)) :
    List (String × YVal) :=
  evs.foldl
    (fun m e =>
      if e.event_type = "CollateralEvent::UpdatedViaManualInput" then
        dset m e.entity ((e.values.lookup "collateral").getD (.num 25000000))
      else m)
    init

/-- Claim-side annual-rate normalization (C4): default 12, a raw value `< 1`
is a fraction and is scaled by 100, otherwise passed through.  (For a raw
value `Decimal` would reject, the junk value 0 is used; the theorems only
apply it where parsing succeeded.) -/
def annualRateSpec (kvs : List (String × YVal)) : ℚ :=
  match kvs.lookup "annual_rate" with
  | none => 12
  | some v => if (yToDec v).getD 0 < 1 then (yToDec v).getD 0 * 100 else (yToDec v).getD 0

/-- Claim-side CVL normalization of one raw CVL value (amended C4): the
nested `Finite`/`finite` entry, scaled by 100 when `< 10`, with the default
used when the mapping is absent, empty, not a mapping, has no such entry, or
the entry is falsy (numerically zero). -/
def cvlValSpec (cv : YVal) (dflt : ℚ) : ℚ :=
  match cv with
  | .map ckvs =>
      if ckvs.isEmpty then dflt
      else
        match yget2 ckvs "Finite" "finite" with
        | some f =>
            if yTruthy f then
              if (yToDec f).getD 0 < 10 then (yToDec f).getD 0 * 100 else (yToDec f).getD 0
            else dflt
        | none => dflt
  | _ => dflt

/-- Claim-side CVL normalization for a named field of a raw terms mapping. -/
def cvlFieldSpec (kvs : List (String × YVal)) (key : String) (dflt : ℚ) : ℚ :=
  cvlValSpec ((kvs.lookup key).getD (.map [])) dflt

/-- The four duration unit letters of the loader's pattern. -/
def unitChars : List Char := ['s', 'm', 'h', 'd']

/-- Claim-side seconds-per-unit function for the loader's duration pattern. -/
def unitSeconds (u : Char) : ℕ :=
  if u = 's' then 1
  else if u = 'm' then 60
  else if u = 'h' then 3600
  else if u = 'd' then 86400
  else 0

theorem lookup_val_mem {β : Type} (l : List (String × β)) (k : String) (v : β)
    (h : l.lookup k = some v) : v ∈ l.map Prod.snd := by
  induction l with
  | nil => simp [List.lookup] at h
  | cons kv tl ih =>
      rw [List.lookup] at h
      cases hk : (k == kv.1) with
      | true =>
          rw [hk] at h
          injection h with h
          simp [← h]
      | false =>
          rw [hk] at h
          simp only [List.map_cons, List.mem_cons]
          exact Or.inr (ih h)

theorem table_values_cases : ∀ v ∈ EVENT_TO_ACTION.map Prod.snd,
    v = "skip" ∨ v = "multi:create_facility" ∨
      (v ≠ "skip" ∧ v ≠ "unknown" ∧ v ≠ "multi:create_facility" ∧
        pyStartsWith v "multi:" = false) := by decide

theorem expand_cf_eq (e : ScenarioEvent) (tracker : EntityTracker)
    (camts : List (String × YVal)) (ml : List SimAction)
    (h : expand_multi_action "create_facility" e tracker camts = some ml) :
    ∃ amount_usd, pdiv100 (.y (facilityAmount tracker e.entity)) = some amount_usd ∧
      ml = [⟨"create_proposal", e.entity,
              [("customer_ref", .s (facilityCustomerRef tracker e.entity)),
               ("amount_usd", .q amount_usd),
               ("terms", .terms (facilityTerms tracker e.entity))], 0⟩,
            ⟨"conclude_customer_approval", e.entity, [], 0⟩,
            ⟨"wait_for_approval", e.entity, [], 0⟩,
            ⟨"update_collateral_for_activation", e.entity,
              [("satoshis", .y (expansionCollateralAmount camts tracker e))], 0⟩,
            ⟨"wait_for_facility_activation", e.entity, [], 0⟩] := by
  unfold expand_multi_action at h
  rw [if_pos rfl] at h
  cases hd : pdiv100 (.y (facilityAmount tracker e.entity)) with
  | none => rw [hd] at h; cases h
  | some amount_usd =>
      rw [hd] at h
      injection h with h
      exact ⟨amount_usd, rfl, h.symm⟩

theorem convert_event_multi (camts : List (String × YVal)) (tracker : EntityTracker)
    (e : ScenarioEvent)
    (h : EVENT_TO_ACTION.lookup e.event_type = some "multi:create_facility") :
    convert_event camts tracker e =
      (expand_multi_action "create_facility" e tracker camts).map
        (set_waits (e.after / 86400)) := by
  unfold convert_event
  rw [h]
  rfl

theorem convert_event_length (camts : List (String × YVal)) (tracker : EntityTracker)
    (e : ScenarioEvent) (as : List SimAction)
    (h : convert_event camts tracker e = some as) :
    as.length = eventWeight e.event_type := by
  unfold convert_event at h
  cases hr : EVENT_TO_ACTION.lookup e.event_type with
  | none =>
      rw [hr] at h
      rw [show convert_event_core camts tracker e ((none : Option String).getD "unknown") =
          some [⟨"comment", e.entity, [("text", .s ("TODO: " ++ e.event_type))],
            e.after / 86400⟩] from rfl] at h
      injection h with h
      rw [← h]
      simp [eventWeight, hr]
  | some v =>
      rw [hr] at h
      rcases table_values_cases v (lookup_val_mem _ _ _ hr) with hv | hv | ⟨h1, h2, h3, h4⟩
      · subst hv
        rw [show convert_event_core camts tracker e ((some "skip").getD "unknown") = some []
            from rfl] at h
        injection h with h
        rw [← h]
        simp [eventWeight, hr]
      · subst hv
        rw [show convert_event_core camts tracker e
              ((some "multi:create_facility").getD "unknown") =
            (expand_multi_action "create_facility" e tracker camts).map
              (set_waits (e.after / 86400)) from rfl] at h
        cases hex : expand_multi_action "create_facility" e tracker camts with
        | none => rw [hex] at h; cases h
        | some ml =>
            rw [hex] at h
            injection h with h
            rcases expand_cf_eq e tracker camts ml hex with ⟨q0, _, hml⟩
            rw [← h, hml]
            simp [set_waits, eventWeight, hr]
      · rw [show ((some v).getD "unknown") = v from rfl] at h
        unfold convert_event_core at h
        rw [if_neg h1, if_neg h2, if_neg (by simp [h4])] at h
        cases hep : extract_params e v tracker with
        | none => rw [hep] at h; cases h
        | some ps =>
            rw [hep] at h
            injection h with h
            rw [← h]
            simp [eventWeight, hr, h1, h3]

theorem pass2_length (camts : List (String × YVal)) (tracker : EntityTracker) :
    ∀ evs acts, pass2 camts tracker evs = some acts →
      acts.length = (evs.map (fun e => eventWeight e.event_type)).sum := by
  intro evs
  induction evs with
  | nil =>
      intro acts h
      rw [pass2] at h
      injection h with h
      rw [← h]
      simp
  | cons e rest ih =>
      intro acts h
      rw [pass2] at h
      cases hc : convert_event camts tracker e with
      | none => rw [hc] at h; cases h
      | some as =>
          rw [hc] at h
          cases hp : pass2 camts tracker rest with
          | none => rw [hp] at h; cases h
          | some more =>
              rw [hp] at h
              injection h with h
              rw [← h]
              simp [convert_event_length camts tracker e as hc, ih more hp]

theorem convert_scenario_eq (s : Scenario) (camts : List (String × YVal))
    (tracker : EntityTracker) (h1 : pass1 s.events ([], {}) = some (camts, tracker)) :
    convert_scenario s =
      (match pass2 camts tracker s.events with
       | none => none
       | some actions => some (actions, tracker)) := by
  unfold convert_scenario
  rw [h1]

theorem convert_scenario_parts (s : Scenario) (p : List SimAction × EntityTracker)
    (h : convert_scenario s = some p) :
    ∃ camts tracker acts, pass1 s.events ([], {}) = some (camts, tracker) ∧
      pass2 camts tracker s.events = some acts ∧ p = (acts, tracker) := by
  cases h1 : pass1 s.events ([], {}) with
  | none =>
      unfold convert_scenario at h
      rw [h1] at h
      cases h
  | some st =>
      obtain ⟨camts, tracker⟩ := st
      rw [convert_scenario_eq s camts tracker h1] at h
      cases h2 : pass2 camts tracker s.events with
      | none => rw [h2] at h; cases h
      | some acts =>
          rw [h2] at h
          injection h with h
          exact ⟨camts, tracker, acts, rfl, h2, h.symm⟩

/-- C1: every input event contributes a fixed number of actions to the output
of translate, determined solely by its dispatch classification (0 for `skip`,
1 for a direct mapping or an event type absent from the table, 5 for
`multi:create_facility`); the total action count is the sum of the per-event
contributions. -/
theorem C1_action_count (s : Scenario) (p : List SimAction × EntityTracker)
    (h : convert_scenario s = some p) :
    p.1.length = (s.events.map (fun e => eventWeight e.event_type)).sum := by
  rcases convert_scenario_parts s p h with ⟨camts, tracker, acts, _, h2, hp⟩
  rw [hp]
  exact pass2_length camts tracker s.events acts h2

def exScenario1 : Scenario :=
  ⟨"c1-example", "", 0, "2024-01-01T09:00:00Z",
   [⟨"CustomerEvent::Initialized", "customer_1", 0, []⟩,
    ⟨"CustomerEvent::EmailUpdated", "customer_1", 0, []⟩,
    ⟨"FooEvent::Bar", "e1", 0, []⟩,
    ⟨"CreditFacilityEvent::Initialized", "facility_1", 0, []⟩]⟩

def exResult1 : List SimAction × EntityTracker :=
  (convert_scenario exScenario1).getD ([], {})

/-- Witness for C1: a concrete scenario with one direct event (1 action), one
skipped event (0), one unknown event (1) and one expansion (5), 7 actions in
total. -/
theorem C1_witness :
    exResult1.1.length = (exScenario1.events.map (fun e => eventWeight e.event_type)).sum ∧
    (exScenario1.events.map (fun e => eventWeight e.event_type)).sum = 7 :=
  ⟨C1_action_count exScenario1 exResult1 rfl, by decide⟩

/-- C2: an event whose event type is dispatched to `multi:create_facility`
expands to exactly five actions, in the order create_proposal,
conclude_customer_approval, wait_for_approval,
update_collateral_for_activation, wait_for_facility_activation, with the
triggering event's wait (in whole days) on the first action and zero on the
remaining four. -/
theorem C2_multi_expansion (camts : List (String × YVal)) (tracker : EntityTracker)
    (e : ScenarioEvent) (l : List SimAction)
    (h1 : EVENT_TO_ACTION.lookup e.event_type = some "multi:create_facility")
    (h2 : convert_event camts tracker e = some l) :
    l.map (fun a => a.action_type) =
      ["create_proposal", "conclude_customer_approval", "wait_for_approval",
       "update_collateral_for_activation", "wait_for_facility_activation"] ∧
    l.map (fun a => a.wait_days) = [e.after / 86400, 0, 0, 0, 0] := by
  rw [convert_event_multi camts tracker e h1] at h2
  cases hex : expand_multi_action "create_facility" e tracker camts with
  | none => rw [hex] at h2; cases h2
  | some ml =>
      rw [hex] at h2
      injection h2 with h2
      rcases expand_cf_eq e tracker camts ml hex with ⟨q0, _, hml⟩
      subst hml
      rw [← h2]
      exact ⟨rfl, rfl⟩

def exEvent2 : ScenarioEvent :=
  ⟨"CreditFacilityEvent::Initialized", "facility_1", 259200, []⟩

def exActions2 : List SimAction :=
  (convert_event [] {} exEvent2).getD []

/-- Witness for C2: an `after` of 3 days (259,200 s) puts wait_days 3 on the
first generated action and 0 on the other four. -/
theorem C2_witness :
    (exActions2.map (fun a => a.action_type) =
      ["create_proposal", "conclude_customer_approval", "wait_for_approval",
       "update_collateral_for_activation", "wait_for_facility_activation"] ∧
     exActions2.map (fun a => a.wait_days) = [exEvent2.after / 86400, 0, 0, 0, 0]) ∧
    exEvent2.after / 86400 = 3 :=
  ⟨C2_multi_expansion [] {} exEvent2 exActions2 rfl rfl, by decide⟩

/-- C3: an event whose event type is absent from the dispatch table never
fails; it produces exactly one `comment` action whose params carry the text
`TODO: <event_type>`. -/
theorem C3_unknown_event_comment (camts : List (String × YVal)) (tracker : EntityTracker)
    (e : ScenarioEvent) (h : EVENT_TO_ACTION.lookup e.event_type = none) :
    convert_event camts tracker e =
      some [⟨"comment", e.entity, [("text", .s ("TODO: " ++ e.event_type))],
        e.after / 86400⟩] := by
  unfold convert_event
  rw [h]
  rfl

def exEvent3 : ScenarioEvent := ⟨"FooEvent::Bar", "e1", 0, []⟩

/-- Witness for C3: `FooEvent::Bar` is absent from the table and yields one
comment action carrying `TODO: FooEvent::Bar`. -/
theorem C3_witness :
    convert_event [] {} exEvent3 =
      some [⟨"comment", "e1", [("text", .s "TODO: FooEvent::Bar")], 0⟩] :=
  C3_unknown_event_comment [] {} exEvent3 rfl

/-- C9: translate is deterministic — the embedding of `convert_scenario` is a
pure function of the `Scenario` value (the source reads no clock, randomness
or global state), so translating the same value twice yields identical action
lists and tracker contents. -/
theorem C9_deterministic (s : Scenario) : convert_scenario s = convert_scenario s := rfl

/-- C10: every action directly produced by an event (the single action of a
direct or unknown mapping, or the first action of an expansion) carries the
event's `after` duration truncated to whole days (`seconds / 86400`, Python
`timedelta.days`). -/
theorem C10_wait_days_truncation (camts : List (String × YVal)) (tracker : EntityTracker)
    (e : ScenarioEvent) (l : List SimAction) (a : SimAction)
    (h1 : convert_event camts tracker e = some l) (h2 : l.head? = some a) :
    a.wait_days = e.after / 86400 := by
  unfold convert_event at h1
  cases hr : EVENT_TO_ACTION.lookup e.event_type with
  | none =>
      rw [hr] at h1
      rw [show convert_event_core camts tracker e ((none : Option String).getD "unknown") =
          some [⟨"comment", e.entity, [("text", .s ("TODO: " ++ e.event_type))],
            e.after / 86400⟩] from rfl] at h1
      injection h1 with h1
      rw [← h1] at h2
      injection h2 with h2
      rw [← h2]
  | some v =>
      rw [hr] at h1
      rcases table_values_cases v (lookup_val_mem _ _ _ hr) with hv | hv | ⟨hv1, hv2, hv3, hv4⟩
      · subst hv
        rw [show convert_event_core camts tracker e ((some "skip").getD "unknown") = some []
            from rfl] at h1
        injection h1 with h1
        rw [← h1] at h2
        cases h2
      · subst hv
        rw [show convert_event_core camts tracker e
              ((some "multi:create_facility").getD "unknown") =
            (expand_multi_action "create_facility" e tracker camts).map
              (set_waits (e.after / 86400)) from rfl] at h1
        cases hex : expand_multi_action "create_facility" e tracker camts with
        | none => rw [hex] at h1; cases h1
        | some ml =>
            rw [hex] at h1
            injection h1 with h1
            rcases expand_cf_eq e tracker camts ml hex with ⟨q0, _, hml⟩
            subst hml
            rw [← h1] at h2
            injection h2 with h2
            rw [← h2]
      · rw [show ((some v).getD "unknown") = v from rfl] at h1
        unfold convert_event_core at h1
        rw [if_neg hv1, if_neg hv2, if_neg (by simp [hv4])] at h1
        cases hep : extract_params e v tracker with
        | none => rw [hep] at h1; cases h1
        | some ps =>
            rw [hep] at h1
            injection h1 with h1
            rw [← h1] at h2
            injection h2 with h2
            rw [← h2]

def exEvent10a : ScenarioEvent := ⟨"FooEvent::Bar", "e1", 82800, []⟩

def exEvent10b : ScenarioEvent := ⟨"FooEvent::Bar", "e1", 86400, []⟩

def exActions10a : List SimAction := (convert_event [] {} exEvent10a).getD []

def exActions10b : List SimAction := (convert_event [] {} exEvent10b).getD []

def exHead10a : SimAction := exActions10a.headD ⟨"", "", [], 0⟩

def exHead10b : SimAction := exActions10b.headD ⟨"", "", [], 0⟩

/-- Witness for C10: an `after` of 23 hours (82,800 s) yields wait_days 0, an
`after` of exactly 24 hours (86,400 s) yields wait_days 1. -/
theorem C10_witness :
    (exHead10a.wait_days = exEvent10a.after / 86400 ∧
     exHead10b.wait_days = exEvent10b.after / 86400) ∧
    exEvent10a.after / 86400 = 0 ∧ exEvent10b.after / 86400 = 1 :=
  ⟨⟨C10_wait_days_truncation [] {} exEvent10a exActions10a exHead10a rfl rfl,
    C10_wait_days_truncation [] {} exEvent10b exActions10b exHead10b rfl rfl⟩,
   by decide, by decide⟩

theorem takeWhile_all_append (p : Char → Bool) (ds : List Char) (u : Char)
    (rest : List Char) (hds : ∀ c ∈ ds, p c = true) (hu : p u = false) :
    (ds ++ u :: rest).takeWhile p = ds ∧ (ds ++ u :: rest).dropWhile p = u :: rest := by
  induction ds with
  | nil => simp [List.takeWhile_cons, List.dropWhile_cons, hu]
  | cons d tl ih =>
      have hd : p d = true := hds d (by simp)
      obtain ⟨h1, h2⟩ := ih (fun c hc => hds c (by simp [hc]))
      constructor
      · simp only [List.cons_append, List.takeWhile_cons, hd, if_true, h1]
      · simp only [List.cons_append, List.dropWhile_cons, hd, if_true, h2]

theorem unit_not_digit (u : Char) (hu : u ∈ unitChars) : u.isDigit = false := by
  simp only [unitChars, List.mem_cons, List.not_mem_nil, or_false] at hu
  obtain h | h | h | h := hu <;> subst h <;> decide

theorem parse_duration_matched (ds rest : List Char) (u : Char)
    (h1 : ds ≠ []) (h2 : ∀ c ∈ ds, c.isDigit = true) (h3 : u ∈ unitChars) :
    parse_duration (ds ++ u :: rest) = digitsVal ds * unitSeconds u := by
  obtain ⟨ht, hd⟩ := takeWhile_all_append Char.isDigit ds u rest h2 (unit_not_digit u h3)
  have hne : (ds ++ u :: rest).isEmpty = false := by
    cases ds with
    | nil => exact absurd rfl h1
    | cons a l => rfl
  have hne2 : ds.isEmpty = false := by
    cases ds with
    | nil => exact absurd rfl h1
    | cons a l => rfl
  simp only [unitChars, List.mem_cons, List.not_mem_nil, or_false] at h3
  obtain h | h | h | h := h3 <;> subst h <;>
    simp [parse_duration, ht, hd, hne, hne2, unitSeconds]

theorem parse_duration_unmatched (cs : List Char)
    (h : ¬ ∃ ds u rest, cs = ds ++ u :: rest ∧ ds ≠ [] ∧
          (∀ c ∈ ds, c.isDigit = true) ∧ u ∈ unitChars) :
    parse_duration cs = 0 := by
  by_cases hempty : cs.isEmpty
  · simp [parse_duration, hempty]
  · by_cases hds : (cs.takeWhile Char.isDigit).isEmpty
    · simp [parse_duration, hds, hempty]
    · cases hh : (cs.dropWhile Char.isDigit).head? with
      | none => simp [parse_duration, hempty, hds, hh]
      | some u =>
          have hmem : u ∉ unitChars := by
            intro hu
            apply h
            obtain ⟨t, ht⟩ : ∃ t, cs.dropWhile Char.isDigit = u :: t := by
              cases hcs : cs.dropWhile Char.isDigit with
              | nil => rw [hcs] at hh; cases hh
              | cons a l =>
                  rw [hcs] at hh
                  injection hh with hh
                  exact ⟨l, by rw [hh]⟩
            refine ⟨cs.takeWhile Char.isDigit, u, t, ?_, ?_, ?_, hu⟩
            · rw [← ht]
              exact (List.takeWhile_append_dropWhile Char.isDigit cs).symm
            · intro heq
              rw [heq] at hds
              exact hds rfl
            · intro c hc
              exact List.mem_takeWhile_imp hc
          have h1 : ¬(u = 's') := fun e => hmem (by rw [e]; decide)
          have h2 : ¬(u = 'm') := fun e => hmem (by rw [e]; decide)
          have h3 : ¬(u = 'h') := fun e => hmem (by rw [e]; decide)
          have h4 : ¬(u = 'd') := fun e => hmem (by rw [e]; decide)
          simp [parse_duration, hempty, hds, hh, h1, h2, h3, h4]

/-- C7: the loader's duration parsing is total and lenient — a string whose
leading characters match `<integer><unit>` with unit in s/m/h/d parses to
that many seconds/minutes/hours/days, any string not matching the pattern
parses to a zero duration, and an absent `after` field also yields a zero
duration. -/
theorem C7_duration_parsing (ds rest cs : List Char) (u : Char) (d : EventDef)
    (h1 : ds ≠ []) (h2 : ∀ c ∈ ds, c.isDigit = true) (h3 : u ∈ unitChars)
    (h4 : ¬ ∃ ds' u' rest', cs = ds' ++ u' :: rest' ∧ ds' ≠ [] ∧
          (∀ c ∈ ds', c.isDigit = true) ∧ u' ∈ unitChars)
    (h5 : d.after = none) :
    parse_duration (ds ++ u :: rest) = digitsVal ds * unitSeconds u ∧
    parse_duration cs = 0 ∧ (parse_event d).after = 0 := by
  refine ⟨parse_duration_matched ds rest u h1 h2 h3, parse_duration_unmatched cs h4, ?_⟩
  unfold parse_event
  rw [h5]
  rfl

theorem head_not_digit_unmatched (cs : List Char) (hd : (cs.headD ' ').isDigit = false) :
    ¬ ∃ ds u rest, cs = ds ++ u :: rest ∧ ds ≠ [] ∧
      (∀ c ∈ ds, c.isDigit = true) ∧ u ∈ unitChars := by
  rintro ⟨ds, u, rest, hcs, hne, hdig, _⟩
  cases ds with
  | nil => exact hne rfl
  | cons a as =>
      subst hcs
      have ha : a.isDigit = true := hdig a (by simp)
      simp only [List.cons_append, List.headD_cons] at hd
      rw [ha] at hd
      cases hd

def exDef7 : EventDef := ⟨"FooEvent::Bar", "e1", none, none⟩

/-- Witness for C7: `"24h"` parses to 24 hours (86,400 seconds), `"bogus"`
and an absent `after` field give a zero duration. -/
theorem C7_witness :
    (parse_duration (['2', '4'] ++ 'h' :: []) = digitsVal ['2', '4'] * unitSeconds 'h' ∧
     parse_duration "bogus".data = 0 ∧ (parse_event exDef7).after = 0) ∧
    digitsVal ['2', '4'] * unitSeconds 'h' = 86400 :=
  ⟨C7_duration_parsing ['2', '4'] [] "bogus".data 'h' exDef7 (by decide) (by decide)
      (by decide) (head_not_digit_unmatched "bogus".data (by decide)) rfl,
   by decide⟩

theorem parse_cvl_spec (cv : YVal) (dflt q : ℚ) (h : parse_cvl cv dflt = some q) :
    q = cvlValSpec cv dflt := by
  cases cv with
  | num n =>
      rw [show parse_cvl (.num n) dflt = some dflt from rfl] at h
      injection h with h
      rw [← h]
      rfl
  | str s =>
      rw [show parse_cvl (.str s) dflt = some dflt from rfl] at h
      injection h with h
      rw [← h]
      rfl
  | map kvs =>
      simp only [parse_cvl] at h
      by_cases he : kvs.isEmpty
      · rw [if_pos he] at h
        injection h with h
        rw [← h]
        simp [cvlValSpec, he]
      · rw [if_neg he] at h
        cases hg : yget2 kvs "Finite" "finite" with
        | none =>
            simp only [hg] at h
            injection h with h
            rw [← h]
            simp [cvlValSpec, he, hg]
        | some f =>
            simp only [hg] at h
            by_cases htr : yTruthy f
            · rw [if_pos htr] at h
              cases hdec : yToDec f with
              | none => rw [hdec] at h; cases h
              | some val =>
                  rw [hdec] at h
                  injection h with h
                  rw [← h]
                  simp [cvlValSpec, he, hg, htr, hdec]
            · rw [if_neg htr] at h
              injection h with h
              rw [← h]
              simp [cvlValSpec, he, hg, htr]

theorem annualRateRaw_spec (kvs : List (String × YVal)) (q : ℚ)
    (h : annualRateRaw kvs = some q) : q = annualRateSpec kvs := by
  unfold annualRateRaw at h
  cases hl : kvs.lookup "annual_rate" with
  | none =>
      simp only [hl] at h
      injection h with h
      rw [← h]
      simp [annualRateSpec, hl]
  | some v =>
      simp only [hl] at h
      cases hdec : yToDec v with
      | none => rw [hdec] at h; cases h
      | some rate =>
          rw [hdec] at h
          injection h with h
          rw [← h]
          simp [annualRateSpec, hl, hdec]

/-- C4 (amended): `TermsValues` normalization scales a raw `annual_rate`
below 1 by 100 (default 12), and takes each CVL field from the nested
`Finite`/`finite` entry scaled by 100 when below 10, with defaults
140/125/105 — where the default is also used when the nested entry is
*falsy* (numerically zero), not only when the nested mapping is absent. -/
theorem C4_terms_normalization (kvs : List (String × YVal)) (tv : TermsValues)
    (h : TermsValues.from_yaml (.map kvs) = some tv) :
    tv.annual_rate = annualRateSpec kvs ∧
    tv.initial_cvl = cvlFieldSpec kvs "initial_cvl" 140 ∧
    tv.margin_call_cvl = cvlFieldSpec kvs "margin_call_cvl" 125 ∧
    tv.liquidation_cvl = cvlFieldSpec kvs "liquidation_cvl" 105 := by
  unfold TermsValues.from_yaml at h
  by_cases ht : yTruthy (.map kvs)
  · rw [if_pos ht] at h
    have h' : from_yaml_map kvs = some tv := h
    unfold from_yaml_map at h'
    cases hA : annualRateRaw kvs with
    | none => simp only [hA] at h'; cases h'
    | some ar =>
        cases hI : parse_cvl ((kvs.lookup "initial_cvl").getD (.map [])) 140 with
        | none => simp only [hA, hI] at h'; cases h'
        | some icvl =>
            cases hM : parse_cvl ((kvs.lookup "margin_call_cvl").getD (.map [])) 125 with
            | none => simp only [hA, hI, hM] at h'; cases h'
            | some mcvl =>
                cases hL : parse_cvl ((kvs.lookup "liquidation_cvl").getD (.map [])) 105 with
                | none => simp only [hA, hI, hM, hL] at h'; cases h'
                | some lcvl =>
                    cases hF : yToDec ((kvs.lookup "one_time_fee_rate").getD (.str "0.01")) with
                    | none => simp only [hA, hI, hM, hL, hF] at h'; cases h'
                    | some fee =>
                        simp only [hA, hI, hM, hL, hF] at h'
                        injection h' with h'
                        rw [← h']
                        exact ⟨annualRateRaw_spec kvs ar hA, parse_cvl_spec _ 140 icvl hI,
                               parse_cvl_spec _ 125 mcvl hM, parse_cvl_spec _ 105 lcvl hL⟩
  · rw [if_neg ht] at h
    injection h with h
    have hk : kvs = [] := by
      by_cases he : kvs.isEmpty
      · exact List.isEmpty_iff.mp he
      · exact absurd (by simp [yTruthy, he]) ht
    subst hk
    rw [← h]
    exact ⟨rfl, rfl, rfl, rfl⟩

def cexTerms4 : YVal := .map [("initial_cvl", .map [("Finite", .num 0)])]

/-- Counterexample for C4 as stated: with a nested `{Finite: 0}` the numeric
value 0 is present and `< 10`, so the claim requires
`initial_cvl = 0 * 100 = 0`; the code's truthiness guard (`if finite:`)
discards the falsy value and falls back to the default 140. -/
theorem C4_counterexample :
    (TermsValues.from_yaml cexTerms4).map TermsValues.initial_cvl = some 140 ∧
    (0 : ℚ) * 100 ≠ 140 := by
  constructor
  · rfl
  · norm_num

def exKvs4 : List (String × YVal) :=
  [("annual_rate", .str "0.10"), ("initial_cvl", .map [("Finite", .str "1.40")])]

def exTV4 : TermsValues := (TermsValues.from_yaml (.map exKvs4)).getD {}

/-- Witness for C4 (amended), doubling as the spec's round-trip example:
`{annual_rate: "0.10", initial_cvl: {Finite: "1.40"}}` yields
`annual_rate = 10` and `initial_cvl = 140`. -/
theorem C4_witness :
    (exTV4.annual_rate = annualRateSpec exKvs4 ∧
     exTV4.initial_cvl = cvlFieldSpec exKvs4 "initial_cvl" 140 ∧
     exTV4.margin_call_cvl = cvlFieldSpec exKvs4 "margin_call_cvl" 125 ∧
     exTV4.liquidation_cvl = cvlFieldSpec exKvs4 "liquidation_cvl" 105) ∧
    exTV4.annual_rate = 10 ∧ exTV4.initial_cvl = 140 := by
  refine ⟨C4_terms_normalization exKvs4 exTV4 rfl, ?_, ?_⟩
  · have e1 : exTV4.annual_rate =
        (fun rate : ℚ => if rate < 1 then rate * 100 else rate)
          (1 * ((digitsVal ['0'] : ℚ) +
            (digitsVal ['1', '0'] : ℚ) / 10 ^ (['1', '0'] : List Char).length)) := rfl
    rw [e1, show digitsVal ['0'] = 0 from rfl, show digitsVal ['1', '0'] = 10 from rfl,
      show (['1', '0'] : List Char).length = 2 from rfl]
    norm_num
  · have e2 : exTV4.initial_cvl =
        (fun val : ℚ => if val < 10 then val * 100 else val)
          (1 * ((digitsVal ['1'] : ℚ) +
            (digitsVal ['4', '0'] : ℚ) / 10 ^ (['4', '0'] : List Char).length)) := rfl
    rw [e2, show digitsVal ['1'] = 1 from rfl, show digitsVal ['4', '0'] = 40 from rfl,
      show (['4', '0'] : List Char).length = 2 from rfl]
    norm_num

/-- C5 (code bug): pass-1 reference resolution uses Python
`rstrip("_ref")`, which removes all trailing characters from the set
`{_, r, e, f}` rather than the four-character suffix `_ref`.  On the
conventional keys it happens to work (`customer_1_ref` → `customer_1`), but a
reference such as `customer_ref` (entity key `customer` plus marker) resolves
to `custom` instead of `customer`, contradicting the intended
strip-the-trailing-marker behaviour that the sibling `get_customer_var`
implements correctly with slicing (`[:-4]`). -/
theorem C5_rstrip_code_bug :
    resolveRef (.str "customer_1_ref") = some "customer_1" ∧
    resolveRef (.str "customer_ref") = some "custom" ∧
    "custom" ≠ "customer" ∧
    ((pass1 [⟨"CreditFacilityEvent::Initialized", "facility_1", 0,
        [("customer_id_ref", .str "customer_ref")]⟩] ([], {})).bind
      (fun st => (st.2.facilities.lookup "facility_1").map FacilityInfo.customer_ref)) =
      some "custom" :=
  ⟨by decide, by decide, by decide, rfl⟩

theorem pass1_step_cases (st : List (String × YVal) × EntityTracker) (e : ScenarioEvent)
    (st' : List (String × YVal) × EntityTracker) (h : pass1_step st e = some st') :
    st'.1 = (if e.event_type = "CollateralEvent::UpdatedViaManualInput"
             then dset st.1 e.entity ((e.values.lookup "collateral").getD (.num 25000000))
             else st.1) ∧
    st'.2.collaterals = st.2.collaterals ∧ st'.2.disbursals = st.2.disbursals := by
  unfold pass1_step at h
  by_cases h1 : e.event_type = "CollateralEvent::UpdatedViaManualInput"
  · rw [if_pos h1] at h
    injection h with h
    rw [← h, if_pos h1]
    exact ⟨rfl, rfl, rfl⟩
  · rw [if_neg h1] at h
    by_cases h2 : e.event_type = "CustomerEvent::Initialized"
    · rw [if_pos h2] at h
      injection h with h
      rw [← h, if_neg h1]
      exact ⟨rfl, rfl, rfl⟩
    · rw [if_neg h2] at h
      by_cases h3 : e.event_type = "CreditFacilityEvent::Initialized"
      · rw [if_pos h3] at h
        cases hm1 : resolveRef ((e.values.lookup "customer_id_ref").getD (.str "customer_1")) with
        | none => simp only [hm1] at h; cases h
        | some cr =>
            cases hm2 : resolveRef
                ((e.values.lookup "collateral_id_ref").getD (.str "collateral_1")) with
            | none => simp only [hm1, hm2] at h; cases h
            | some lr =>
                cases hm3 : TermsValues.from_yaml ((e.values.lookup "terms").getD (.map [])) with
                | none => simp only [hm1, hm2, hm3] at h; cases h
                | some tv =>
                    simp only [hm1, hm2, hm3] at h
                    injection h with h
                    rw [← h, if_neg h1]
                    exact ⟨rfl, rfl, rfl⟩
      · rw [if_neg h3] at h
        injection h with h
        rw [← h, if_neg h1]
        exact ⟨rfl, rfl, rfl⟩

theorem pass1_camts (evs : List ScenarioEvent) :
    ∀ st res, pass1 evs st = some res → res.1 = manualAmounts evs st.1 := by
  induction evs with
  | nil =>
      intro st res h
      rw [pass1] at h
      injection h with h
      rw [← h]
      rfl
  | cons e rest ih =>
      intro st res h
      rw [pass1] at h
      cases hs : pass1_step st e with
      | none => rw [hs] at h; cases h
      | some st' =>
          rw [hs] at h
          rw [ih st' res h, (pass1_step_cases st e st' hs).1]
          simp only [manualAmounts, List.foldl_cons]

theorem pass1_preserves_cd (evs : List ScenarioEvent) :
    ∀ st res, pass1 evs st = some res →
      res.2.collaterals = st.2.collaterals ∧ res.2.disbursals = st.2.disbursals := by
  induction evs with
  | nil =>
      intro st res h
      rw [pass1] at h
      injection h with h
      rw [← h]
      exact ⟨rfl, rfl⟩
  | cons e rest ih =>
      intro st res h
      rw [pass1] at h
      cases hs : pass1_step st e with
      | none => rw [hs] at h; cases h
      | some st' =>
          rw [hs] at h
          obtain ⟨hc, hd⟩ := ih st' res h
          obtain ⟨_, hc', hd'⟩ := pass1_step_cases st e st' hs
          exact ⟨hc.trans hc', hd.trans hd'⟩

def cexScenario6 : Scenario :=
  ⟨"c6-cex", "", 0, "2024-01-01T09:00:00Z",
   [⟨"CollateralEvent::UpdatedViaCustodianSync", "collateral_1", 0,
      [("collateral", .num 999)]⟩,
    ⟨"CreditFacilityEvent::Initialized", "facility_1", 0, []⟩]⟩

/-- Counterexample for C6 as stated: the scenario's only collateral-update
event is a `CollateralEvent::UpdatedViaCustodianSync` carrying amount 999 for
`collateral_1`, the entity the facility's expansion resolves to; the claim
then requires `update_collateral_for_activation` to carry the tracked amount
999, but pass 1 records amounts only for `UpdatedViaManualInput` events, so
the expansion falls back to the default 25,000,000. -/
theorem C6_counterexample :
    (convert_scenario cexScenario6).map
        (fun p => p.1.map (fun a => (a.action_type, pget a.params "satoshis"))) =
      some [("update_collateral", some (.y (.num 999))),
            ("create_proposal", none),
            ("conclude_customer_approval", none),
            ("wait_for_approval", none),
            ("update_collateral_for_activation", some (.y (.num 25000000))),
            ("wait_for_facility_activation", none)] ∧
    (999 : ℚ) ≠ 25000000 :=
  ⟨rfl, by norm_num⟩

/-- C6 (amended): pass 1 records, for each *manual-input* collateral-update
event (`CollateralEvent::UpdatedViaManualInput` only — custodian-sync updates
are not recorded), the most recent collateral amount keyed by that event's
entity; the `update_collateral_for_activation` step of every
`multi:create_facility` expansion sets `satoshis` to the pass-1-tracked
amount for the facility's registered collateral entity, falling back to the
triggering event's own `collateral` value (default 25,000,000) when no
tracked amount exists. -/
theorem C6_collateral_tracking (s : Scenario) (camts : List (String × YVal))
    (tracker : EntityTracker) (e : ScenarioEvent) (l : List SimAction)
    (h1 : pass1 s.events ([], {}) = some (camts, tracker))
    (_h2 : e ∈ s.events)
    (h3 : EVENT_TO_ACTION.lookup e.event_type = some "multi:create_facility")
    (h4 : convert_event camts tracker e = some l) :
    camts = manualAmounts s.events [] ∧
    (l.getD 3 ⟨"", "", [], 0⟩).action_type = "update_collateral_for_activation" ∧
    pget (l.getD 3 ⟨"", "", [], 0⟩).params "satoshis" =
      some (.y ((camts.lookup (facilityCollateralRef tracker e.entity)).getD
        ((e.values.lookup "collateral").getD (.num 25000000)))) := by
  rw [convert_event_multi camts tracker e h3] at h4
  cases hex : expand_multi_action "create_facility" e tracker camts with
  | none => rw [hex] at h4; cases h4
  | some ml =>
      rw [hex] at h4
      injection h4 with h4
      rcases expand_cf_eq e tracker camts ml hex with ⟨q0, _, hml⟩
      subst hml
      rw [← h4]
      exact ⟨pass1_camts s.events ([], {}) (camts, tracker) h1, rfl, rfl⟩

def exEvent6 : ScenarioEvent := ⟨"CreditFacilityEvent::Initialized", "facility_1", 0, []⟩

def exScenario6 : Scenario :=
  ⟨"c6-witness", "", 0, "2024-01-01T09:00:00Z",
   [⟨"CollateralEvent::UpdatedViaManualInput", "collateral_1", 0,
      [("collateral", .num 999)]⟩,
    exEvent6]⟩

def exState6 : List (String × YVal) × EntityTracker :=
  (pass1 exScenario6.events ([], {})).getD ([], {})

def exActions6 : List SimAction :=
  (convert_event exState6.1 exState6.2 exEvent6).getD []

/-- Witness for C6 (amended) at a concrete scenario with one manual-input
collateral update followed by a facility initialization. -/
theorem C6_witness :
    exState6.1 = manualAmounts exScenario6.events [] ∧
    (exActions6.getD 3 ⟨"", "", [], 0⟩).action_type = "update_collateral_for_activation" ∧
    pget (exActions6.getD 3 ⟨"", "", [], 0⟩).params "satoshis" =
      some (.y ((exState6.1.lookup (facilityCollateralRef exState6.2 exEvent6.entity)).getD
        ((exEvent6.values.lookup "collateral").getD (.num 25000000)))) :=
  C6_collateral_tracking exScenario6 exState6.1 exState6.2 exEvent6 exActions6
    rfl (by simp [exScenario6]) rfl rfl

def cexScenario8 : Scenario :=
  ⟨"c8-cex", "", 0, "2024-01-01T09:00:00Z",
   [⟨"CreditFacilityEvent::Initialized", "facility_1", 0, []⟩,
    ⟨"DisbursalEvent::Initialized", "disbursal_1", 0, [("amount", .num 100000)]⟩]⟩

/-- Counterexample for C8 as stated: the scenario contains a disbursal event
for `disbursal_1`, yet the tracker built by translate has empty collateral
and disbursal mappings — `convert_scenario` never calls `register_collateral`
or `register_disbursal` — so the reverse lookup resolves no facility for
`disbursal_1` (it returns `none`, not `some "facility_1"`). -/
theorem C8_counterexample :
    (convert_scenario cexScenario8).map
        (fun p => (p.2.collaterals.isEmpty, p.2.disbursals.isEmpty,
          get_facility_for_entity p.2 "disbursal_1")) =
      some (true, true, none) ∧
    (none : Option String) ≠ some "facility_1" :=
  ⟨rfl, by simp⟩

/-- C8 (amended): the `EntityTracker` type does support collateral and
disbursal mappings with reverse lookup (registering a disbursal or collateral
makes `get_facility_for_entity` resolve its facility), but translate never
populates them: for every scenario, the tracker returned by
`convert_scenario` has empty collateral and disbursal mappings and its
reverse lookup returns `none` for every entity key. -/
theorem C8_tracker_reverse_lookup (s : Scenario) (p : List SimAction × EntityTracker)
    (k : String) (h : convert_scenario s = some p) :
    p.2.collaterals = [] ∧ p.2.disbursals = [] ∧
    get_facility_for_entity p.2 k = none ∧
    get_facility_for_entity
        (register_disbursal {} "disbursal_1" (some "facility_1") 0) "disbursal_1" =
      some "facility_1" ∧
    get_facility_for_entity
        (register_collateral {} "collateral_1" 25000000 (some "facility_1")) "collateral_1" =
      some "facility_1" := by
  rcases convert_scenario_parts s p h with ⟨camts, tracker, acts, h1, h2, hp⟩
  obtain ⟨hc, hd⟩ := pass1_preserves_cd s.events ([], {}) (camts, tracker) h1
  have hc' : tracker.collaterals = [] := hc
  have hd' : tracker.disbursals = [] := hd
  rw [hp]
  refine ⟨hc', hd', ?_, rfl, rfl⟩
  show get_facility_for_entity tracker k = none
  unfold get_facility_for_entity
  rw [hc', hd']
  simp [List.lookup]

def exScenario8 : Scenario :=
  ⟨"c8-witness", "", 0, "2024-01-01T09:00:00Z",
   [⟨"CreditFacilityEvent::Initialized", "facility_1", 0, []⟩,
    ⟨"DisbursalEvent::Initialized", "disbursal_1", 0, [("amount", .num 100000)]⟩]⟩

def exP8 : List SimAction × EntityTracker :=
  (convert_scenario exScenario8).getD ([], {})

/-- Witness for C8 (amended) at a concrete scenario containing a disbursal
event. -/
theorem C8_witness :
    exP8.2.collaterals = [] ∧ exP8.2.disbursals = [] ∧
    get_facility_for_entity exP8.2 "disbursal_1" = none ∧
    get_facility_for_entity
        (register_disbursal {} "disbursal_1" (some "facility_1") 0) "disbursal_1" =
      some "facility_1" ∧
    get_facility_for_entity
        (register_collateral {} "collateral_1" 25000000 (some "facility_1")) "collateral_1" =
      some "facility_1" :=
  C8_tracker_reverse_lookup exScenario8 exP8 "disbursal_1" rfl
